import Mathlib

/-!
Verification of the agent session & distributed-query orchestration engine of
the fleet repository.  The Go sources embedded here are
`server/service/service_osquery.go` (the unnamed source file: detail-query
registry and ingestion, label ingestion, distributed-query collection,
result submission) and `server/datastore/mysql/policies.go` (the policy
recorder).  Pure helpers are translated directly; the effectful datastore and
pub/sub collaborators are modelled as an explicit environment of outcomes
(`Env`) plus a trace of persisted effects (`Effects`).
-/

/-! ## Go primitive helpers -/

/-- Go `uint(i)` conversion of a (64-bit) signed value: reduce modulo 2^64. -/
def goUint (i : Int) : Nat := (i % (2 : Int) ^ 64).toNat

/-- Go 64-bit signed wrap-around (used for `time.Duration` multiplication). -/
def goInt64 (i : Int) : Int := (i + 2 ^ 63) % 2 ^ 64 - 2 ^ 63

/-- Go source `emptyToZero`: numeric fields may arrive as empty strings; they
are replaced by "0" before string-to-integer conversion. -/
def emptyToZero (val : String) : String := if val = "" then "0" else val

/-- Decimal value of a list of digit characters. -/
def digitsVal (ds : List Char) : Nat :=
  ds.foldl (fun acc c => acc * 10 + (c.toNat - 48)) 0

/-- Go `strconv.Atoi` (= `ParseInt(s, 10, 0)` with 64-bit `int`): optional
sign, at least one decimal digit, error on any other character and on 64-bit
range overflow. -/
def goAtoi (s : String) : Except String Int :=
  match s.toList with
  | [] => .error ("invalid syntax: " ++ s)
  | c :: cs =>
    let signed : Bool × List Char :=
      if c = '-' then (true, cs) else if c = '+' then (false, cs) else (false, c :: cs)
    match signed with
    | (neg, ds) =>
      if ds.isEmpty then .error ("invalid syntax: " ++ s)
      else if ds.all Char.isDigit then
        let v : Int := if neg then -(digitsVal ds : Int) else (digitsVal ds : Int)
        if v < -(2 ^ 63) ∨ (2 : Int) ^ 63 ≤ v then .error ("value out of range: " ++ s)
        else .ok v
      else .error ("invalid syntax: " ++ s)

/-- Boolean prefix test on character lists (cases on the candidate prefix
first so that it reduces definitionally when the prefix is a literal). -/
def listHasAtStart : List Char → List Char → Bool
  | [], _ => true
  | a :: ps, s =>
    match s with
    | [] => false
    | c :: cs => a == c && listHasAtStart ps cs

/-- Drop as many characters from `s` as the first list has. -/
def dropLen : List Char → List Char → List Char
  | [], s => s
  | _ :: ps, s =>
    match s with
    | [] => []
    | _ :: cs => dropLen ps cs

/-- Go `strings.HasPrefix s pre`. -/
def goHasAtStart (s pre : String) : Bool := listHasAtStart pre.toList s.toList

/-- Go `strings.TrimPrefix s pre`. -/
def goTrimLeading (s pre : String) : String :=
  if goHasAtStart s pre then String.mk (dropLen pre.toList s.toList) else s

/-- Go `strings.ToLower` (ASCII is all the embedding needs). -/
def goToLower (s : String) : String := String.mk (s.toList.map Char.toLower)

/-- Substring occurrence test on character lists. -/
def listHasSub : List Char → List Char → Bool
  | s, sub =>
    match s with
    | [] => sub.isEmpty
    | _ :: rest => listHasAtStart sub s || listHasSub rest sub

/-- Go `strings.Contains s sub`. -/
def goContainsSub (s sub : String) : Bool := listHasSub s.toList sub.toList

/-- Go `strings.Trim s "."`: remove leading and trailing dots. -/
def goTrimDots (s : String) : String :=
  String.mk (((s.toList.dropWhile (· = '.')).reverse.dropWhile (· = '.')).reverse)

/-! ## Data model -/

/-- One osquery result row, a Go `map[string]string` (keys are unique). -/
abbrev Row := List (String × String)

/-- Go map indexing `m[key]` for string-keyed maps (the two-result form
`v, ok := m[key]` is this; the one-result form defaults to the zero value). -/
def assocGet {β : Type} (key : String) : List (String × β) → Option β
  | [] => none
  | (k, v) :: rest => if k == key then some v else assocGet key rest

/-- `row[key]` (one-result form, zero value on missing key). -/
def rowGet (row : Row) (key : String) : String := (assocGet key row).getD ""

/-- `v, ok := row[key]` (two-result form). -/
def rowGet? (row : Row) (key : String) : Option String := assocGet key row

/-- `kolide.NetworkInterface` (the fields the ingestion writes). -/
structure NetworkInterface where
  mac : String
  ipAddress : String
  broadcast : String
  ibytes : Int
  ierrors : Int
  interface : String
  ipackets : Int
  lastChange : Int
  mask : String
  metric : Int
  mtu : Int
  obytes : Int
  oerrors : Int
  opackets : Int
  pointToPoint : String
  type : Int
  deriving Repr, DecidableEq

/-- `kolide.Host` (the fields this core reads or writes).  Times are modelled
as integers (nanoseconds); `uptimeNs` is the Go `time.Duration`. -/
structure Host where
  id : Nat
  nodeKey : String
  detailUpdateTime : Int
  networkInterfaces : List NetworkInterface
  osVersion : String
  build : String
  platform : String
  platformLike : String
  codeName : String
  osqueryVersion : String
  physicalMemory : Int
  hostName : String
  uuid : String
  cpuType : String
  cpuSubtype : String
  cpuBrand : String
  cpuPhysicalCores : Int
  cpuLogicalCores : Int
  hardwareVendor : String
  hardwareModel : String
  hardwareVersion : String
  hardwareSerial : String
  computerName : String
  uptimeNs : Int
  distributedInterval : Nat
  loggerTLSPeriod : Nat
  configTLSRefresh : Nat
  deriving Repr, DecidableEq

/-! ## Query name markers (Go constants hostLabelQueryPrefix,
hostDetailQueryPrefix, hostDistributedQueryPrefix) -/

/-- Go constant `hostLabelQueryPrefix`. -/
def hostLabelQueryMark : String := "kolide_label_query_"

/-- Go constant `hostDetailQueryPrefix`. -/
def hostDetailQueryMark : String := "kolide_detail_query_"

/-- Go constant `hostDistributedQueryPrefix`. -/
def hostDistributedQueryMark : String := "kolide_distributed_query_"

/-! ## Detail query registry (Go `detailQueries`)

Each Go `IngestFunc` mutates `*kolide.Host` and may return an error; on an
error the submission aborts and the host is never saved, so the ingestion is
embedded as a pure transform `Host → List Row → Except String Host` (on the
error branch the in-memory partial writes of the Go code are unobservable
because `SaveHost` is never reached). -/

/-- One row of the `network_interface` detail query.  The traffic counters
(ibytes, ierrors, ipackets, obytes, oerrors, opackets) fall back to -1 when
parsing fails; last_change (when present), metric, mtu and type propagate
their parse errors, in the source's evaluation order. -/
def parseNic (row : Row) : Except String NetworkInterface := do
  let ibytes := match goAtoi (emptyToZero (rowGet row "ibytes")) with
    | .ok v => v
    | .error _ => -1
  let ierrors := match goAtoi (emptyToZero (rowGet row "ierrors")) with
    | .ok v => v
    | .error _ => -1
  let ipackets := match goAtoi (emptyToZero (rowGet row "ipackets")) with
    | .ok v => v
    | .error _ => -1
  let lastChange ← match rowGet? row "last_change" with
    | some lc => goAtoi (emptyToZero lc)
    | none => .ok 0
  let metric ← goAtoi (emptyToZero (rowGet row "metric"))
  let mtu ← goAtoi (emptyToZero (rowGet row "mtu"))
  let obytes := match goAtoi (emptyToZero (rowGet row "obytes")) with
    | .ok v => v
    | .error _ => -1
  let oerrors := match goAtoi (emptyToZero (rowGet row "oerrors")) with
    | .ok v => v
    | .error _ => -1
  let opackets := match goAtoi (emptyToZero (rowGet row "opackets")) with
    | .ok v => v
    | .error _ => -1
  let ty ← goAtoi (emptyToZero (rowGet row "type"))
  .ok { mac := rowGet row "mac"
        ipAddress := rowGet row "address"
        broadcast := rowGet row "broadcast"
        ibytes := ibytes
        ierrors := ierrors
        interface := rowGet row "interface"
        ipackets := ipackets
        lastChange := lastChange
        mask := rowGet row "mask"
        metric := metric
        mtu := mtu
        obytes := obytes
        oerrors := oerrors
        opackets := opackets
        pointToPoint := rowGet row "point_to_point"
        type := ty }

/-- `detailQueries["network_interface"].IngestFunc`: zero rows is a soft
warning (host untouched); otherwise every row is parsed and the list replaces
`host.NetworkInterfaces`. -/
def networkInterfaceIngest (host : Host) (rows : List Row) : Except String Host :=
  match rows with
  | [] => .ok host
  | _ => (rows.mapM parseNic).map (fun nics => { host with networkInterfaces := nics })

/-- `detailQueries["os_version"].IngestFunc`: expects exactly one row, else a
soft warning.  OS version string assembled from name/major/minor/patch with
dots trimmed; centos workaround backfills an empty platform. -/
def osVersionIngest (host : Host) (rows : List Row) : Except String Host :=
  match rows with
  | [r] =>
    let osVersion := goTrimDots
      (rowGet r "name" ++ " " ++ rowGet r "major" ++ "." ++ rowGet r "minor" ++ "." ++
        rowGet r "patch")
    let build := match rowGet? r "build" with
      | some b => b
      | none => host.build
    let platform0 := rowGet r "platform"
    let platform :=
      if platform0 = "" ∧ goContainsSub (goToLower (rowGet r "name")) "centos" = true
      then "centos" else platform0
    .ok { host with
          osVersion := osVersion
          build := build
          platform := platform
          platformLike := rowGet r "platform_like"
          codeName := rowGet r "code_name" }
  | _ => .ok host

/-- One step of the `osquery_flags` ingestion loop: the accumulator carries
the host together with the pending configTLSRefresh / configRefresh values. -/
def flagsStep (acc : Host × Nat × Nat) (row : Row) : Except String (Host × Nat × Nat) :=
  match rowGet row "name" with
  | "distributed_interval" =>
    match goAtoi (emptyToZero (rowGet row "value")) with
    | .error e => .error ("parsing distributed_interval: " ++ e)
    | .ok v => .ok ({ acc.1 with distributedInterval := goUint v }, acc.2.1, acc.2.2)
  | "config_tls_refresh" =>
    match goAtoi (emptyToZero (rowGet row "value")) with
    | .error e => .error ("parsing config_tls_refresh: " ++ e)
    | .ok v => .ok (acc.1, goUint v, acc.2.2)
  | "config_refresh" =>
    match goAtoi (emptyToZero (rowGet row "value")) with
    | .error e => .error ("parsing config_refresh: " ++ e)
    | .ok v => .ok (acc.1, acc.2.1, goUint v)
  | "logger_tls_period" =>
    match goAtoi (emptyToZero (rowGet row "value")) with
    | .error e => .error ("parsing logger_tls_period: " ++ e)
    | .ok v => .ok ({ acc.1 with loggerTLSPeriod := goUint v }, acc.2.1, acc.2.2)
  | _ => .ok acc

/-- `detailQueries["osquery_flags"].IngestFunc`: folds over the rows, then
prefers a non-zero legacy `config_tls_refresh` over `config_refresh`. -/
def osqueryFlagsIngest (host : Host) (rows : List Row) : Except String Host :=
  (rows.foldlM flagsStep (host, 0, 0)).map (fun acc =>
    { acc.1 with configTLSRefresh := if acc.2.1 ≠ 0 then acc.2.1 else acc.2.2 })

/-- `detailQueries["osquery_info"].IngestFunc`. -/
def osqueryInfoIngest (host : Host) (rows : List Row) : Except String Host :=
  match rows with
  | [r] => .ok { host with osqueryVersion := rowGet r "version" }
  | _ => .ok host

/-- `detailQueries["system_info"].IngestFunc`. -/
def systemInfoIngest (host : Host) (rows : List Row) : Except String Host :=
  match rows with
  | [r] => do
    let physicalMemory ← goAtoi (emptyToZero (rowGet r "physical_memory"))
    let cpuPhysicalCores ← goAtoi (emptyToZero (rowGet r "cpu_physical_cores"))
    let cpuLogicalCores ← goAtoi (emptyToZero (rowGet r "cpu_logical_cores"))
    .ok { host with
          physicalMemory := physicalMemory
          hostName := rowGet r "hostname"
          uuid := rowGet r "uuid"
          cpuType := rowGet r "cpu_type"
          cpuSubtype := rowGet r "cpu_subtype"
          cpuBrand := rowGet r "cpu_brand"
          cpuPhysicalCores := cpuPhysicalCores
          cpuLogicalCores := cpuLogicalCores
          hardwareVendor := rowGet r "hardware_vendor"
          hardwareModel := rowGet r "hardware_model"
          hardwareVersion := rowGet r "hardware_version"
          hardwareSerial := rowGet r "hardware_serial"
          computerName := rowGet r "computer_name" }
  | _ => .ok host

/-- `detailQueries["uptime"].IngestFunc`: `time.Duration(seconds) *
time.Second` is 64-bit wrapping multiplication by 10^9. -/
def uptimeIngest (host : Host) (rows : List Row) : Except String Host :=
  match rows with
  | [r] => do
    let uptimeSeconds ← goAtoi (emptyToZero (rowGet r "total_seconds"))
    .ok { host with uptimeNs := goInt64 (uptimeSeconds * 1000000000) }
  | _ => .ok host

/-- The names in the `detailQueries` registry. -/
def detailQueryNames : List String :=
  ["network_interface", "os_version", "osquery_flags", "osquery_info", "system_info",
   "uptime"]

/-- `detailQueries[name].IngestFunc` lookup. -/
def detailQueryIngest? (name : String) :
    Option (Host → List Row → Except String Host) :=
  match name with
  | "network_interface" => some networkInterfaceIngest
  | "os_version" => some osVersionIngest
  | "osquery_flags" => some osqueryFlagsIngest
  | "osquery_info" => some osqueryInfoIngest
  | "system_info" => some systemInfoIngest
  | "uptime" => some uptimeIngest
  | _ => none

/-- `detailQueries[name].Query` lookup (whitespace of the Go multi-line
literals normalized; the texts play no role in the claims). -/
def detailQueryText (name : String) : String :=
  match name with
  | "network_interface" => "select ia.interface, address, mask, broadcast, point_to_point, id.interface, mac, id.type, mtu, metric, ipackets, opackets, ibytes, obytes, ierrors, oerrors, idrops, odrops, last_change from interface_details id join interface_addresses ia on ia.interface = id.interface where length(mac) > 0 order by (ibytes + obytes) desc"
  | "os_version" => "select * from os_version limit 1"
  | "osquery_flags" => "select name, value from osquery_flags where name in (\"distributed_interval\", \"config_tls_refresh\", \"config_refresh\", \"logger_tls_period\")"
  | "osquery_info" => "select * from osquery_info limit 1"
  | "system_info" => "select * from system_info limit 1"
  | "uptime" => "select * from uptime limit 1"
  | _ => ""

/-! ## Detail query scheduling -/

/-- Go constant `detailUpdateInterval = 1 * time.Hour`, in nanoseconds. -/
def detailUpdateIntervalNs : Int := 3600 * 1000000000

/-- Go `svc.hostDetailQueries`: empty when details are still fresh
(`host.DetailUpdateTime.After(now.Add(-detailUpdateInterval))`); otherwise one
marked entry per registry query. -/
def hostDetailQueries (now : Int) (host : Host) : List (String × String) :=
  if now - detailUpdateIntervalNs < host.detailUpdateTime then []
  else detailQueryNames.map (fun n => (hostDetailQueryMark ++ n, detailQueryText n))

/-! ## Result ingestion dispatch -/

/-- Go `svc.ingestDetailQuery`. -/
def ingestDetailQuery (host : Host) (name : String) (rows : List Row) :
    Except String Host :=
  let trimmedQuery := goTrimLeading name hostDetailQueryMark
  match detailQueryIngest? trimmedQuery with
  | none => .error ("unknown detail query " ++ trimmedQuery)
  | some ingest =>
    match ingest host rows with
    | .error e => .error ("ingesting query " ++ name ++ ": " ++ e)
    | .ok h => .ok h

/-- Insert-or-replace on an association list: the model of Go map assignment
`results[k] = v`. -/
def mapSet (m : List (Nat × Bool)) (k : Nat) (v : Bool) : List (Nat × Bool) :=
  match m with
  | [] => [(k, v)]
  | (k', v') :: rest => if k' = k then (k, v) :: rest else (k', v') :: mapSet rest k v

/-- Go `svc.ingestLabelQuery`: parse the label id from the marked name and
record `len(rows) > 0`; negative results are stored, not skipped. -/
def ingestLabelQuery (query : String) (rows : List Row)
    (results : List (Nat × Bool)) : Except String (List (Nat × Bool)) :=
  let trimmedQuery := goTrimLeading query hostLabelQueryMark
  match goAtoi (emptyToZero trimmedQuery) with
  | .error e => .error ("converting query from string to int: " ++ e)
  | .ok n => .ok (mapSet results (goUint n) (decide (0 < rows.length)))

/-! ## Distributed query campaigns, pub/sub and the effect model -/

/-- Campaign status (`kolide.QueryStatus`). -/
inductive QueryStatus where
  | pending
  | running
  | complete
  deriving Repr, DecidableEq

/-- `kolide.DistributedQueryCampaign` (identifier, originating query, status). -/
structure Campaign where
  id : Nat
  queryID : Nat
  status : QueryStatus
  deriving Repr, DecidableEq

/-- `kolide.DistributedQueryResult`: the ephemeral result envelope. -/
structure DQResult where
  campaignID : Nat
  host : Host
  rows : List Row
  errorMsg : Option String
  deriving Repr, DecidableEq

/-- Execution status (`kolide.ExecutionSucceeded` / `kolide.ExecutionFailed`). -/
inductive ExecStatus where
  | succeeded
  | failed
  deriving Repr, DecidableEq

/-- `kolide.DistributedQueryExecution`: append-only audit record. -/
structure DQExecution where
  hostID : Nat
  campaignID : Nat
  status : ExecStatus
  deriving Repr, DecidableEq

/-- Outcome of `svc.resultStore.WriteResult`: success, a `pubsub.Error` with
`NoSubscriber() = true`, or any other error (including non-pubsub errors). -/
inductive PublishOutcome where
  | ok
  | noSubscriber
  | otherError (msg : String)
  deriving Repr, DecidableEq

/-- Environment of collaborator outcomes: what the pub/sub store and the
datastore answer to each call the service makes. -/
structure Env where
  publishOutcome : DQResult → PublishOutcome
  loadCampaign : Nat → Except String Campaign
  saveCampaignErr : Campaign → Option String
  newExecutionErr : DQExecution → Option String
  recordLabelErr : Option String
  saveHostErr : Option String

/-- Trace of persisted effects accumulated by a call. -/
structure Effects where
  writeAttempts : List DQResult
  savedCampaigns : List Campaign
  executions : List DQExecution
  labelRecords : List (List (Nat × Bool) × Int)
  savedHosts : List Host
  deriving Repr, DecidableEq

/-- The empty effect trace. -/
def Effects.empty : Effects :=
  { writeAttempts := [], savedCampaigns := [], executions := [], labelRecords := []
    savedHosts := [] }

/-- The result envelope built by `ingestDistributedQuery`. -/
def mkDistributedResult (host : Host) (rows : List Row) (failed : Bool)
    (campaignID : Nat) : DQResult :=
  { campaignID := campaignID
    host := host
    rows := rows
    errorMsg := if failed then some "failed" else none }

/-- The execution audit record built by `ingestDistributedQuery`. -/
def mkExecRecord (host : Host) (campaignID : Nat) (failed : Bool) : DQExecution :=
  { hostID := host.id
    campaignID := campaignID
    status := if failed then ExecStatus.failed else ExecStatus.succeeded }

/-- Go `svc.ingestDistributedQuery`: parse the campaign id, publish the
envelope; a `NoSubscriber` publish failure closes the orphaned campaign
instead of erring, any other publish failure errs; afterwards the execution
audit record is appended. -/
def ingestDistributedQuery (env : Env) (eff : Effects) (host : Host) (name : String)
    (rows : List Row) (failed : Bool) : Except String Unit × Effects :=
  let trimmedQuery := goTrimLeading name hostDistributedQueryMark
  match goAtoi (emptyToZero trimmedQuery) with
  | .error _ => (.error ("unable to parse campaign ID: " ++ trimmedQuery), eff)
  | .ok cid =>
    let campaignID := goUint cid
    let res := mkDistributedResult host rows failed campaignID
    let eff1 := { eff with writeAttempts := eff.writeAttempts ++ [res] }
    let afterWrite : Except String Effects :=
      match env.publishOutcome res with
      | .ok => .ok eff1
      | .otherError m => .error ("writing results: " ++ m)
      | .noSubscriber =>
        match env.loadCampaign campaignID with
        | .error m => .error ("loading orphaned campaign: " ++ m)
        | .ok campaign =>
          let campaign1 := { campaign with status := QueryStatus.complete }
          match env.saveCampaignErr campaign1 with
          | some m => .error ("closing orphaned campaign: " ++ m)
          | none =>
            .ok { eff1 with savedCampaigns := eff1.savedCampaigns ++ [campaign1] }
    match afterWrite with
    | .error e => (.error e, eff1)
    | .ok eff2 =>
      let exec := mkExecRecord host campaignID failed
      match env.newExecutionErr exec with
      | some m => (.error ("recording execution: " ++ m), eff2)
      | none => (.ok (), { eff2 with executions := eff2.executions ++ [exec] })

/-! ## Result submission (Go `svc.SubmitDistributedQueryResults`) -/

/-- Loop state of the submission: the in-memory host copy, the accumulated
label results, the detail-updated flag and the effect trace. -/
structure SubmitState where
  host : Host
  labelResults : List (Nat × Bool)
  detailUpdated : Bool
  eff : Effects

/-- One iteration of the result loop: dispatch on the query name marker. -/
def submitStep (env : Env) (statuses : List (String × Int)) (st : SubmitState)
    (query : String) (rows : List Row) : Except String Unit × SubmitState :=
  if goHasAtStart query hostDetailQueryMark then
    match ingestDetailQuery st.host query rows with
    | .error e => (.error e, { st with detailUpdated := true })
    | .ok h => (.ok (), { st with host := h, detailUpdated := true })
  else if goHasAtStart query hostLabelQueryMark then
    match ingestLabelQuery query rows st.labelResults with
    | .error e => (.error e, st)
    | .ok lr => (.ok (), { st with labelResults := lr })
  else if goHasAtStart query hostDistributedQueryMark then
    let failed := match assocGet query statuses with
      | some status => decide (status ≠ 0)
      | none => false
    let call := ingestDistributedQuery env st.eff st.host query rows failed
    (call.1, { st with eff := call.2 })
  else
    (.error ("unknown query prefix: " ++ query), st)

/-- The result loop; an error on any entry aborts the whole submission
(wrapped as "failed to ingest result"), keeping the effects so far. -/
def submitLoop (env : Env) (statuses : List (String × Int)) (st : SubmitState) :
    List (String × List Row) → Except String Unit × SubmitState
  | [] => (.ok (), st)
  | (query, rows) :: rest =>
    match submitStep env statuses st query rows with
    | (.error e, st') => (.error ("failed to ingest result: " ++ e), st')
    | (.ok _, st') => submitLoop env statuses st' rest

/-- Go `svc.SubmitDistributedQueryResults`: run the loop over the submitted
results (the list order models one Go map iteration order), then batch-record
label results keyed by the current time, stamp `DetailUpdateTime` when any
detail query was present, and save the host when anything changed. -/
def SubmitDistributedQueryResults (env : Env) (now : Int) (host : Host)
    (results : List (String × List Row)) (statuses : List (String × Int)) :
    Except String Unit × Effects :=
  let st0 : SubmitState :=
    { host := host, labelResults := [], detailUpdated := false, eff := Effects.empty }
  match submitLoop env statuses st0 results with
  | (.error e, st) => (.error e, st.eff)
  | (.ok _, st) =>
    let recorded : Except String Effects :=
      if 0 < st.labelResults.length then
        match env.recordLabelErr with
        | some m => .error ("failed to save labels: " ++ m)
        | none =>
          .ok { st.eff with labelRecords := st.eff.labelRecords ++ [(st.labelResults, now)] }
      else .ok st.eff
    match recorded with
    | .error e => (.error e, st.eff)
    | .ok eff1 =>
      let host1 := if st.detailUpdated then { st.host with detailUpdateTime := now }
        else st.host
      if 0 < st.labelResults.length ∨ st.detailUpdated = true then
        match env.saveHostErr with
        | some m => (.error ("failed to update host details: " ++ m), eff1)
        | none => (.ok (), { eff1 with savedHosts := eff1.savedHosts ++ [host1] })
      else (.ok (), eff1)

/-! ## Policy recorder (Go `mysql.RecordPolicyQueryExecutions`) -/

/-- Go `sort.Slice(orderedIDs, func(i, j) { orderedIDs[i] < orderedIDs[j] })`:
ascending sort of the policy identifiers. -/
def sortPolicyIDs (l : List Nat) : List Nat := List.insertionSort (· ≤ ·) l

/-- Go `RecordPolicyQueryExecutions`: the result map (arbitrary iteration
order as a key/value list, values are Go `*bool`) is keyed in ascending
order, and one `(updated_at, policy_id, host_id, passes)` row is bound per
ordered id. -/
def RecordPolicyQueryExecutions (hostID : Nat) (results : List (Nat × Option Bool))
    (updated : Int) : List (Int × Nat × Nat × Option Bool) :=
  let orderedIDs := sortPolicyIDs (results.map Prod.fst)
  orderedIDs.map (fun policyID =>
    (updated, policyID, hostID, (results.lookup policyID).getD none))

/-- The label-result accumulation performed by a batch of label entries with
raw suffixes `e.1` (parsing to identifiers via `ids`) and rows `e.2`; used to
characterize the loop of `SubmitDistributedQueryResults` on label batches. -/
def labelFold (ids : String → Int) (m0 : List (Nat × Bool))
    (entries : List (String × List Row)) : List (Nat × Bool) :=
  entries.foldl (fun m e => mapSet m (goUint (ids e.1)) (decide (0 < e.2.length))) m0

/-! ## Shared concrete values used by the witnesses -/

/-- A concrete host for witness instantiations. -/
def host0 : Host :=
  { id := 1
    nodeKey := "key0"
    detailUpdateTime := 0
    networkInterfaces := []
    osVersion := ""
    build := ""
    platform := ""
    platformLike := ""
    codeName := ""
    osqueryVersion := ""
    physicalMemory := 0
    hostName := ""
    uuid := ""
    cpuType := ""
    cpuSubtype := ""
    cpuBrand := ""
    cpuPhysicalCores := 0
    cpuLogicalCores := 0
    hardwareVendor := ""
    hardwareModel := ""
    hardwareVersion := ""
    hardwareSerial := ""
    computerName := ""
    uptimeNs := 0
    distributedInterval := 0
    loggerTLSPeriod := 0
    configTLSRefresh := 0 }

/-- A concrete campaign for witness instantiations. -/
def campaign0 : Campaign := { id := 1, queryID := 9, status := QueryStatus.running }

/-- An environment in which every collaborator call succeeds. -/
def envAllOk : Env :=
  { publishOutcome := fun _ => PublishOutcome.ok
    loadCampaign := fun _ => .ok campaign0
    saveCampaignErr := fun _ => none
    newExecutionErr := fun _ => none
    recordLabelErr := none
    saveHostErr := none }

/-- Environment whose publish reports no subscriber (an orphaned campaign). -/
def envNoSub : Env := { envAllOk with publishOutcome := fun _ => PublishOutcome.noSubscriber }

/-- Environment whose publish fails with an error other than no-subscriber. -/
def envBoom : Env := { envAllOk with publishOutcome := fun _ => PublishOutcome.otherError "boom" }

/-- The network interface produced from a row whose only key is an
unparseable "ibytes": the counter falls back to -1 and everything else takes
the zero-value defaults. -/
def nicWithFailedCounters : NetworkInterface :=
  { mac := ""
    ipAddress := ""
    broadcast := ""
    ibytes := -1
    ierrors := 0
    interface := ""
    ipackets := 0
    lastChange := 0
    mask := ""
    metric := 0
    mtu := 0
    obytes := 0
    oerrors := 0
    opackets := 0
    pointToPoint := ""
    type := 0 }

/-- Specification accumulator for the `osquery_flags` fold: pending writes of
the two host fields plus the two local interval variables. -/
structure FlagsAcc where
  di : Option Nat
  ltp : Option Nat
  t : Nat
  r : Nat
  deriving Repr, DecidableEq

/-- Apply the pending host-field writes of a `FlagsAcc`. -/
def flagsApply (acc : FlagsAcc) (host : Host) : Host :=
  { host with
    distributedInterval := acc.di.getD host.distributedInterval
    loggerTLSPeriod := acc.ltp.getD host.loggerTLSPeriod }

/-- Pure scan of the `osquery_flags` rows (used to characterize the fold in
`osqueryFlagsIngest`). -/
def flagsScan (acc : FlagsAcc) : List Row → Except String FlagsAcc
  | [] => .ok acc
  | row :: rest =>
    match rowGet row "name" with
    | "distributed_interval" =>
      match goAtoi (emptyToZero (rowGet row "value")) with
      | .error e => .error ("parsing distributed_interval: " ++ e)
      | .ok v => flagsScan { acc with di := some (goUint v) } rest
    | "config_tls_refresh" =>
      match goAtoi (emptyToZero (rowGet row "value")) with
      | .error e => .error ("parsing config_tls_refresh: " ++ e)
      | .ok v => flagsScan { acc with t := goUint v } rest
    | "config_refresh" =>
      match goAtoi (emptyToZero (rowGet row "value")) with
      | .error e => .error ("parsing config_refresh: " ++ e)
      | .ok v => flagsScan { acc with r := goUint v } rest
    | "logger_tls_period" =>
      match goAtoi (emptyToZero (rowGet row "value")) with
      | .error e => .error ("parsing logger_tls_period: " ++ e)
      | .ok v => flagsScan { acc with ltp := some (goUint v) } rest
    | _ => flagsScan acc rest

/-! ## Helper lemmas -/

theorem except_bind_ok {α β ε : Type} (a : α) (f : α → Except ε β) :
    (Except.ok a >>= f) = f a := rfl

theorem except_bind_error {α β ε : Type} (e : ε) (f : α → Except ε β) :
    ((Except.error e : Except ε α) >>= f) = .error e := rfl

theorem detailMark_self (s : String) :
    goHasAtStart (hostDetailQueryMark ++ s) hostDetailQueryMark = true := rfl

theorem labelMark_self (s : String) :
    goHasAtStart (hostLabelQueryMark ++ s) hostLabelQueryMark = true := rfl

theorem labelMark_not_detail (s : String) :
    goHasAtStart (hostLabelQueryMark ++ s) hostDetailQueryMark = false := rfl

theorem detailMark_trim (s : String) :
    goTrimLeading (hostDetailQueryMark ++ s) hostDetailQueryMark = s := rfl

theorem labelMark_trim (s : String) :
    goTrimLeading (hostLabelQueryMark ++ s) hostLabelQueryMark = s := rfl

theorem goAtoi_of_empty : goAtoi (emptyToZero "") = .ok 0 := rfl

/-! ## C1: policy write ordering -/

/-- C1: `RecordPolicyQueryExecutions` binds exactly one row per policy
identifier of the result map, in strictly ascending identifier order, and
the bound identifier sequence does not depend on the map's iteration order
(any permutation of the entry list yields the same insert). -/
theorem recordPolicyQueryExecutions_ordered (hostID : Nat) (updated : Int)
    (results : List (Nat × Option Bool)) (hnd : (results.map Prod.fst).Nodup) :
    ((RecordPolicyQueryExecutions hostID results updated).map (fun row => row.2.1)).Pairwise
      (· < ·) ∧
    ((RecordPolicyQueryExecutions hostID results updated).map (fun row => row.2.1)).Perm
      (results.map Prod.fst) ∧
    ∀ results2 : List (Nat × Option Bool), results2.Perm results →
      (RecordPolicyQueryExecutions hostID results2 updated).map (fun row => row.2.1) =
        (RecordPolicyQueryExecutions hostID results updated).map (fun row => row.2.1) := by
  have hmap : ∀ rs : List (Nat × Option Bool),
      (RecordPolicyQueryExecutions hostID rs updated).map (fun row => row.2.1) =
        sortPolicyIDs (rs.map Prod.fst) := by
    intro rs
    simp [RecordPolicyQueryExecutions, List.map_map, Function.comp_def]
  have hsorted : ∀ l : List Nat, (sortPolicyIDs l).Pairwise (· ≤ ·) :=
    fun l => List.sorted_insertionSort (· ≤ ·) l
  have hperm : ∀ l : List Nat, (sortPolicyIDs l).Perm l :=
    fun l => List.perm_insertionSort (· ≤ ·) l
  refine ⟨?_, ?_, ?_⟩
  · rw [hmap]
    have hnd2 : (sortPolicyIDs (results.map Prod.fst)).Nodup :=
      (hperm (results.map Prod.fst)).symm.nodup hnd
    exact ((hsorted (results.map Prod.fst)).and hnd2).imp
      (fun h => lt_of_le_of_ne h.1 h.2)
  · rw [hmap]; exact hperm (results.map Prod.fst)
  · intro results2 hp
    rw [hmap, hmap]
    exact List.eq_of_perm_of_sorted
      ((hperm _).trans ((hp.map Prod.fst).trans (hperm _).symm))
      (hsorted _) (hsorted _)

/-- C1 witness: the map `(7 ↦ true, 3 ↦ false, 5 ↦ true)` is inserted in
identifier order 3, 5, 7. -/
theorem recordPolicyQueryExecutions_ordered_witness :
    (([(7, some true), (3, some false), (5, some true)] : List (Nat × Option Bool)).map
        Prod.fst).Nodup ∧
    (RecordPolicyQueryExecutions 1 [(7, some true), (3, some false), (5, some true)] 0).map
        (fun row => row.2.1) = [3, 5, 7] ∧
    ((RecordPolicyQueryExecutions 1 [(7, some true), (3, some false), (5, some true)] 0).map
        (fun row => row.2.1)).Perm
      (([(7, some true), (3, some false), (5, some true)] : List (Nat × Option Bool)).map
        Prod.fst) :=
  ⟨by decide, by decide,
    (recordPolicyQueryExecutions_ordered 1 0 [(7, some true), (3, some false), (5, some true)]
      (by decide)).2.1⟩

/-! ## C8: single-row detail definitions skip on row-count mismatch -/

/-- C8: the four exactly-one-row detail ingestion functions (os_version,
osquery_info, system_info, uptime), given zero rows or more than one row,
return success and leave every host field unchanged — the first of several
rows is never used. -/
theorem singleRowIngest_skips_on_row_count (host : Host) (rows : List Row)
    (hn : rows.length ≠ 1) :
    osVersionIngest host rows = .ok host ∧
    osqueryInfoIngest host rows = .ok host ∧
    systemInfoIngest host rows = .ok host ∧
    uptimeIngest host rows = .ok host := by
  match rows, hn with
  | [], _ => exact ⟨rfl, rfl, rfl, rfl⟩
  | [r], hn => exact absurd rfl hn
  | a :: b :: t, _ => exact ⟨rfl, rfl, rfl, rfl⟩

/-- C8 witness: a two-row submission leaves the host unchanged in all four
single-row ingestion functions. -/
theorem singleRowIngest_skips_on_row_count_witness :
    osVersionIngest host0 [[("name", "Ubuntu")], [("name", "Debian")]] = .ok host0 ∧
    osqueryInfoIngest host0 [[("name", "Ubuntu")], [("name", "Debian")]] = .ok host0 ∧
    systemInfoIngest host0 [[("name", "Ubuntu")], [("name", "Debian")]] = .ok host0 ∧
    uptimeIngest host0 [[("name", "Ubuntu")], [("name", "Debian")]] = .ok host0 :=
  singleRowIngest_skips_on_row_count host0 [[("name", "Ubuntu")], [("name", "Debian")]]
    (by decide)

/-! ## C7: config_tls_refresh / config_refresh precedence -/

/-- C7: when ingesting the osquery flags, a parsed legacy
`config_tls_refresh` value takes precedence over `config_refresh` exactly
when it is non-zero; when it is zero the successor value is stored instead —
unconditionally, also when the legacy flag was explicitly set to zero. -/
theorem osqueryFlags_legacy_precedence (host : Host) (a b : Int) (sa sb : String)
    (ha : goAtoi (emptyToZero sa) = .ok a) (hb : goAtoi (emptyToZero sb) = .ok b) :
    osqueryFlagsIngest host
        [[("name", "config_tls_refresh"), ("value", sa)],
         [("name", "config_refresh"), ("value", sb)]] =
      .ok { host with configTLSRefresh := if goUint a ≠ 0 then goUint a else goUint b } := by
  simp [osqueryFlagsIngest, flagsStep, rowGet, assocGet, ha, hb, List.foldlM,
    except_bind_ok, Except.map]

/-- C7 witness: a legacy flag deliberately set to zero falls back to the
successor value 77. -/
theorem osqueryFlags_legacy_precedence_witness :
    osqueryFlagsIngest host0
        [[("name", "config_tls_refresh"), ("value", "0")],
         [("name", "config_refresh"), ("value", "77")]] =
      .ok { host0 with configTLSRefresh := 77 } := by
  have h := osqueryFlags_legacy_precedence host0 0 77 "0" "77" rfl rfl
  simpa [goUint] using h

/-! ## C6: empty-string normalization and parse failures -/

/-- C6 counterexample: in the network_interface ingestion a remaining parse
failure on the "ibytes" counter does NOT fail the ingestion — the counter is
stored as -1 and the ingestion succeeds, contradicting "any parse failure
that remains after this normalization causes the ingestion to fail". -/
theorem networkInterface_counter_parse_failure_is_soft :
    goAtoi (emptyToZero "junk") = .error "invalid syntax: junk" ∧
    networkInterfaceIngest host0 [[("ibytes", "junk")]] =
      .ok { host0 with networkInterfaces := [nicWithFailedCounters] } :=
  ⟨rfl, rfl⟩

/-- C6 amended: numeric detail fields arriving as the empty string normalize
to "0" before parsing (so "" parses to 0 and "12345" to 12345); a parse
failure remaining after normalization fails the ingestion with an error for
all numeric fields except the network_interface traffic counters (ibytes,
ierrors, ipackets, obytes, oerrors, opackets), which absorb the failure as
the sentinel value -1 and let the ingestion succeed. -/
theorem emptyToZero_normalization_and_parse_errors :
    goAtoi (emptyToZero "") = .ok 0 ∧
    goAtoi (emptyToZero "12345") = .ok 12345 ∧
    (∀ s : String, s ≠ "" → emptyToZero s = s) ∧
    ∀ (host : Host) (s e : String), goAtoi (emptyToZero s) = .error e →
      uptimeIngest host [[("total_seconds", s)]] = .error e ∧
      systemInfoIngest host [[("physical_memory", s)]] = .error e ∧
      osqueryFlagsIngest host [[("name", "distributed_interval"), ("value", s)]] =
        .error ("parsing distributed_interval: " ++ e) ∧
      networkInterfaceIngest host [[("mtu", s)]] = .error e ∧
      networkInterfaceIngest host [[("ibytes", s)]] =
        .ok { host with networkInterfaces := [nicWithFailedCounters] } := by
  refine ⟨rfl, rfl, fun s hs => by simp [emptyToZero, hs], ?_⟩
  intro host s e hparse
  refine ⟨?_, ?_, ?_, ?_, ?_⟩
  · simp [uptimeIngest, rowGet, assocGet, hparse, except_bind_error]
  · simp [systemInfoIngest, rowGet, assocGet, hparse, except_bind_error]
  · simp [osqueryFlagsIngest, flagsStep, rowGet, assocGet, hparse, List.foldlM,
      Except.map]
  · simp [networkInterfaceIngest, parseNic, rowGet, rowGet?, assocGet, hparse,
      except_bind_ok, except_bind_error, List.mapM, List.mapM.loop, Except.map,
      goAtoi_of_empty]
  · simp [networkInterfaceIngest, parseNic, rowGet, rowGet?, assocGet, hparse,
      nicWithFailedCounters, except_bind_ok, List.mapM, List.mapM.loop, Except.map,
      goAtoi_of_empty]

/-- C6 witness: the concrete unparseable value "junk" errs in uptime
ingestion but is absorbed as -1 by the network_interface counters. -/
theorem emptyToZero_normalization_and_parse_errors_witness :
    uptimeIngest host0 [[("total_seconds", "junk")]] = .error "invalid syntax: junk" ∧
    networkInterfaceIngest host0 [[("ibytes", "junk")]] =
      .ok { host0 with networkInterfaces := [nicWithFailedCounters] } :=
  ⟨(emptyToZero_normalization_and_parse_errors.2.2.2 host0 "junk" "invalid syntax: junk"
      rfl).1,
    (emptyToZero_normalization_and_parse_errors.2.2.2 host0 "junk" "invalid syntax: junk"
      rfl).2.2.2.2⟩

/-! ## C2: publish failure classification -/

/-- C2: for a distributed-query result whose campaign identifier parses, a
no-subscriber publish failure closes the campaign (its status is saved as
complete) and the ingestion succeeds (no error); any other publish failure
fails the ingestion with an internal "writing results" error. -/
theorem ingestDistributedQuery_publish_classification
    (env : Env) (eff : Effects) (host : Host) (name : String) (rows : List Row)
    (failed : Bool) (cid : Int)
    (hparse : goAtoi (emptyToZero (goTrimLeading name hostDistributedQueryMark)) = .ok cid) :
    (∀ campaign : Campaign,
      env.publishOutcome (mkDistributedResult host rows failed (goUint cid)) =
          PublishOutcome.noSubscriber →
      env.loadCampaign (goUint cid) = .ok campaign →
      env.saveCampaignErr { campaign with status := QueryStatus.complete } = none →
      env.newExecutionErr (mkExecRecord host (goUint cid) failed) = none →
      (ingestDistributedQuery env eff host name rows failed).1 = .ok () ∧
      (ingestDistributedQuery env eff host name rows failed).2.savedCampaigns =
        eff.savedCampaigns ++ [{ campaign with status := QueryStatus.complete }]) ∧
    (∀ m : String,
      env.publishOutcome (mkDistributedResult host rows failed (goUint cid)) =
          PublishOutcome.otherError m →
      (ingestDistributedQuery env eff host name rows failed).1 =
        .error ("writing results: " ++ m)) := by
  constructor
  · intro campaign hpub hload hsave hexec
    constructor
    · simp [ingestDistributedQuery, hparse, hpub, hload, hsave, hexec]
    · simp [ingestDistributedQuery, hparse, hpub, hload, hsave, hexec]
  · intro m hpub
    simp [ingestDistributedQuery, hparse, hpub]

/-- C2 witness: with campaign id 7, a no-subscriber publish closes the
campaign and succeeds. -/
theorem ingestDistributedQuery_publish_classification_witness :
    (ingestDistributedQuery envNoSub Effects.empty host0
        (hostDistributedQueryMark ++ "7") [] false).1 = .ok () ∧
    (ingestDistributedQuery envNoSub Effects.empty host0
        (hostDistributedQueryMark ++ "7") [] false).2.savedCampaigns =
      Effects.empty.savedCampaigns ++ [{ campaign0 with status := QueryStatus.complete }] :=
  (ingestDistributedQuery_publish_classification envNoSub Effects.empty host0
      (hostDistributedQueryMark ++ "7") [] false 7 rfl).1 campaign0 rfl rfl rfl rfl

/-! ## C3: the execution audit record is conditional on the publish outcome -/

/-- C3 counterexample: a publish failure other than no-subscriber (campaign
identifier 1 parses fine) makes the ingestion return with an error BEFORE the
execution audit record is appended — the audit trail is not unconditional. -/
theorem ingestDistributedQuery_audit_skipped_on_publish_error :
    (ingestDistributedQuery envBoom Effects.empty host0
        (hostDistributedQueryMark ++ "1") [] false).2.executions = [] ∧
    (ingestDistributedQuery envBoom Effects.empty host0
        (hostDistributedQueryMark ++ "1") [] false).1 =
      .error "writing results: boom" :=
  ⟨rfl, rfl⟩

/-- C3 amended: for a parsed campaign identifier, the execution audit record
(succeeded or failed per the reported status) is appended exactly when the
publish succeeds, or when it fails with no-subscriber and the orphaned
campaign is then loaded and saved successfully; when the publish fails for
any other reason, or when loading or closing the orphaned campaign fails, the
ingestion errs and no audit record is appended. -/
theorem ingestDistributedQuery_audit_conditions
    (env : Env) (eff : Effects) (host : Host) (name : String) (rows : List Row)
    (failed : Bool) (cid : Int)
    (hparse : goAtoi (emptyToZero (goTrimLeading name hostDistributedQueryMark)) = .ok cid) :
    (env.publishOutcome (mkDistributedResult host rows failed (goUint cid)) =
        PublishOutcome.ok →
      env.newExecutionErr (mkExecRecord host (goUint cid) failed) = none →
      (ingestDistributedQuery env eff host name rows failed).2.executions =
        eff.executions ++ [mkExecRecord host (goUint cid) failed]) ∧
    (∀ m : String,
      env.publishOutcome (mkDistributedResult host rows failed (goUint cid)) =
          PublishOutcome.otherError m →
      (ingestDistributedQuery env eff host name rows failed).2.executions =
        eff.executions ∧
      (ingestDistributedQuery env eff host name rows failed).1 =
        .error ("writing results: " ++ m)) ∧
    (∀ m : String,
      env.publishOutcome (mkDistributedResult host rows failed (goUint cid)) =
          PublishOutcome.noSubscriber →
      env.loadCampaign (goUint cid) = .error m →
      (ingestDistributedQuery env eff host name rows failed).2.executions =
        eff.executions ∧
      (ingestDistributedQuery env eff host name rows failed).1 =
        .error ("loading orphaned campaign: " ++ m)) ∧
    (∀ (campaign : Campaign) (m : String),
      env.publishOutcome (mkDistributedResult host rows failed (goUint cid)) =
          PublishOutcome.noSubscriber →
      env.loadCampaign (goUint cid) = .ok campaign →
      env.saveCampaignErr { campaign with status := QueryStatus.complete } = some m →
      (ingestDistributedQuery env eff host name rows failed).2.executions =
        eff.executions ∧
      (ingestDistributedQuery env eff host name rows failed).1 =
        .error ("closing orphaned campaign: " ++ m)) ∧
    (∀ campaign : Campaign,
      env.publishOutcome (mkDistributedResult host rows failed (goUint cid)) =
          PublishOutcome.noSubscriber →
      env.loadCampaign (goUint cid) = .ok campaign →
      env.saveCampaignErr { campaign with status := QueryStatus.complete } = none →
      env.newExecutionErr (mkExecRecord host (goUint cid) failed) = none →
      (ingestDistributedQuery env eff host name rows failed).2.executions =
        eff.executions ++ [mkExecRecord host (goUint cid) failed]) := by
  refine ⟨?_, ?_, ?_, ?_, ?_⟩
  · intro hpub hexec
    simp [ingestDistributedQuery, hparse, hpub, hexec]
  · intro m hpub
    constructor <;> simp [ingestDistributedQuery, hparse, hpub]
  · intro m hpub hload
    constructor <;> simp [ingestDistributedQuery, hparse, hpub, hload]
  · intro campaign m hpub hload hsave
    constructor <;> simp [ingestDistributedQuery, hparse, hpub, hload, hsave]
  · intro campaign hpub hload hsave hexec
    simp [ingestDistributedQuery, hparse, hpub, hload, hsave, hexec]

/-- C3 (amended) witness: with a successful publish the audit record for
campaign 7 is appended. -/
theorem ingestDistributedQuery_audit_conditions_witness :
    (ingestDistributedQuery envAllOk Effects.empty host0
        (hostDistributedQueryMark ++ "7") [] true).2.executions =
      Effects.empty.executions ++ [mkExecRecord host0 7 true] :=
  (ingestDistributedQuery_audit_conditions envAllOk Effects.empty host0
      (hostDistributedQueryMark ++ "7") [] true 7 rfl).1 rfl rfl

/-! ## C9: idempotence of detail ingestion -/

theorem networkInterfaceIngest_twice (host : Host) (rows : List Row) :
    (networkInterfaceIngest host rows >>= fun h => networkInterfaceIngest h rows) =
      networkInterfaceIngest host rows := by
  cases rows with
  | nil => rfl
  | cons a t =>
    simp only [networkInterfaceIngest]
    cases hm : (a :: t).mapM parseNic with
    | error e => rfl
    | ok nics => rfl

theorem osVersionIngest_twice (host : Host) (rows : List Row) :
    (osVersionIngest host rows >>= fun h => osVersionIngest h rows) =
      osVersionIngest host rows := by
  match rows with
  | [] => rfl
  | a :: b :: t => rfl
  | [r] =>
    cases hb : rowGet? r "build" with
    | some bb => simp [osVersionIngest, hb, except_bind_ok]
    | none => simp [osVersionIngest, hb, except_bind_ok]

theorem osqueryInfoIngest_twice (host : Host) (rows : List Row) :
    (osqueryInfoIngest host rows >>= fun h => osqueryInfoIngest h rows) =
      osqueryInfoIngest host rows := by
  match rows with
  | [] => rfl
  | a :: b :: t => rfl
  | [r] => rfl

theorem systemInfoIngest_twice (host : Host) (rows : List Row) :
    (systemInfoIngest host rows >>= fun h => systemInfoIngest h rows) =
      systemInfoIngest host rows := by
  match rows with
  | [] => rfl
  | a :: b :: t => rfl
  | [r] =>
    cases h1 : goAtoi (emptyToZero (rowGet r "physical_memory")) with
    | error e => simp [systemInfoIngest, h1, except_bind_error]
    | ok v1 =>
      cases h2 : goAtoi (emptyToZero (rowGet r "cpu_physical_cores")) with
      | error e => simp [systemInfoIngest, h1, h2, except_bind_ok, except_bind_error]
      | ok v2 =>
        cases h3 : goAtoi (emptyToZero (rowGet r "cpu_logical_cores")) with
        | error e => simp [systemInfoIngest, h1, h2, h3, except_bind_ok, except_bind_error]
        | ok v3 => simp [systemInfoIngest, h1, h2, h3, except_bind_ok]

theorem uptimeIngest_twice (host : Host) (rows : List Row) :
    (uptimeIngest host rows >>= fun h => uptimeIngest h rows) = uptimeIngest host rows := by
  match rows with
  | [] => rfl
  | a :: b :: t => rfl
  | [r] =>
    cases h1 : goAtoi (emptyToZero (rowGet r "total_seconds")) with
    | error e => simp [uptimeIngest, h1, except_bind_error]
    | ok v1 => simp [uptimeIngest, h1, except_bind_ok]

theorem flagsFold_scan (rows : List Row) :
    ∀ (host : Host) (acc : FlagsAcc),
      List.foldlM flagsStep (flagsApply acc host, acc.t, acc.r) rows =
        (flagsScan acc rows).map (fun a => (flagsApply a host, a.t, a.r)) := by
  induction rows with
  | nil => intro host acc; rfl
  | cons row rest ih =>
    intro host acc
    by_cases h1 : rowGet row "name" = "distributed_interval"
    · simp only [List.foldlM, flagsScan, flagsStep, h1]
      cases hv : goAtoi (emptyToZero (rowGet row "value")) with
      | error e => simp [except_bind_error, Except.map]
      | ok v =>
        rw [except_bind_ok]
        exact ih host { acc with di := some (goUint v) }
    · by_cases h2 : rowGet row "name" = "config_tls_refresh"
      · simp only [List.foldlM, flagsScan, flagsStep, h2]
        cases hv : goAtoi (emptyToZero (rowGet row "value")) with
        | error e => simp [except_bind_error, Except.map]
        | ok v =>
          rw [except_bind_ok]
          exact ih host { acc with t := goUint v }
      · by_cases h3 : rowGet row "name" = "config_refresh"
        · simp only [List.foldlM, flagsScan, flagsStep, h3]
          cases hv : goAtoi (emptyToZero (rowGet row "value")) with
          | error e => simp [except_bind_error, Except.map]
          | ok v =>
            rw [except_bind_ok]
            exact ih host { acc with r := goUint v }
        · by_cases h4 : rowGet row "name" = "logger_tls_period"
          · simp only [List.foldlM, flagsScan, flagsStep, h4]
            cases hv : goAtoi (emptyToZero (rowGet row "value")) with
            | error e => simp [except_bind_error, Except.map]
            | ok v =>
              rw [except_bind_ok]
              exact ih host { acc with ltp := some (goUint v) }
          · simp only [List.foldlM, flagsScan, flagsStep, h1, h2, h3, h4]
            rw [except_bind_ok]
            exact ih host acc

theorem osqueryFlagsIngest_eq_scan (host : Host) (rows : List Row) :
    osqueryFlagsIngest host rows =
      (flagsScan { di := none, ltp := none, t := 0, r := 0 } rows).map (fun a =>
        { flagsApply a host with
          configTLSRefresh := if a.t ≠ 0 then a.t else a.r }) := by
  have h := flagsFold_scan rows host { di := none, ltp := none, t := 0, r := 0 }
  unfold osqueryFlagsIngest
  rw [show ((host, (0 : Nat), (0 : Nat))) =
      (flagsApply { di := none, ltp := none, t := 0, r := 0 } host,
       ({ di := none, ltp := none, t := 0, r := 0 } : FlagsAcc).t,
       ({ di := none, ltp := none, t := 0, r := 0 } : FlagsAcc).r) from rfl, h]
  cases flagsScan { di := none, ltp := none, t := 0, r := 0 } rows <;> rfl

theorem osqueryFlagsIngest_twice (host : Host) (rows : List Row) :
    (osqueryFlagsIngest host rows >>= fun h => osqueryFlagsIngest h rows) =
      osqueryFlagsIngest host rows := by
  rw [osqueryFlagsIngest_eq_scan host rows]
  cases hs : flagsScan { di := none, ltp := none, t := 0, r := 0 } rows with
  | error e => rfl
  | ok a =>
    have hmap : Except.map (fun a' =>
        ({ flagsApply a' host with
           configTLSRefresh := if a'.t ≠ 0 then a'.t else a'.r } : Host))
        (Except.ok a : Except String FlagsAcc) =
        Except.ok { flagsApply a host with
          configTLSRefresh := if a.t ≠ 0 then a.t else a.r } := rfl
    rw [hmap, except_bind_ok, osqueryFlagsIngest_eq_scan, hs]
    obtain ⟨di, ltp, t, r⟩ := a
    cases di <;> cases ltp <;> rfl

/-- C9: detail ingestion is idempotent — for every definition in the detail
query registry and every row set, ingesting the same rows twice in succession
yields the same host state (and the same error behaviour) as ingesting them
once. -/
theorem detailIngest_idempotent (name : String)
    (ingest : Host → List Row → Except String Host)
    (hreg : detailQueryIngest? name = some ingest) (host : Host) (rows : List Row) :
    (ingest host rows >>= fun h => ingest h rows) = ingest host rows := by
  unfold detailQueryIngest? at hreg
  split at hreg
  · cases hreg; exact networkInterfaceIngest_twice host rows
  · cases hreg; exact osVersionIngest_twice host rows
  · cases hreg; exact osqueryFlagsIngest_twice host rows
  · cases hreg; exact osqueryInfoIngest_twice host rows
  · cases hreg; exact systemInfoIngest_twice host rows
  · cases hreg; exact uptimeIngest_twice host rows
  · cases hreg

/-- C9 witness: re-ingesting an uptime row is a no-op. -/
theorem detailIngest_idempotent_witness :
    (uptimeIngest host0 [[("total_seconds", "42")]] >>= fun h =>
        uptimeIngest h [[("total_seconds", "42")]]) =
      uptimeIngest host0 [[("total_seconds", "42")]] :=
  detailIngest_idempotent "uptime" uptimeIngest rfl host0 [[("total_seconds", "42")]]

/-! ## C10: any detail-marked result stamps DetailUpdateTime and saves -/

/-- C10: a submission containing a detail-marked query name — here one whose
ingestion is a soft-warning no-op that leaves every host field unchanged —
still sets the saved host's DetailUpdateTime to the current time via a
SaveHost, and the detail query set for that host stays empty at any later
instant less than the one-hour refresh interval after the stamp. -/
theorem detailResult_stamps_detailUpdateTime
    (env : Env) (now later : Int) (host : Host) (rows : List Row) (name : String)
    (ingest : Host → List Row → Except String Host)
    (hreg : detailQueryIngest? name = some ingest)
    (hskip : ingest host rows = .ok host)
    (hsave : env.saveHostErr = none) :
    (SubmitDistributedQueryResults env now host [(hostDetailQueryMark ++ name, rows)]
        []).1 = .ok () ∧
    (SubmitDistributedQueryResults env now host [(hostDetailQueryMark ++ name, rows)]
        []).2.savedHosts = [{ host with detailUpdateTime := now }] ∧
    (later - now < detailUpdateIntervalNs →
      hostDetailQueries later { host with detailUpdateTime := now } = []) := by
  refine ⟨?_, ?_, ?_⟩
  · simp [SubmitDistributedQueryResults, submitLoop, submitStep, ingestDetailQuery,
      detailMark_self, detailMark_trim, hreg, hskip, hsave, Effects.empty]
  · simp [SubmitDistributedQueryResults, submitLoop, submitStep, ingestDetailQuery,
      detailMark_self, detailMark_trim, hreg, hskip, hsave, Effects.empty]
  · intro hlt
    simp only [hostDetailQueries]
    rw [if_pos (by omega)]

/-- C10 witness: an os_version result with zero rows (a soft-skipped
ingestion) still stamps DetailUpdateTime 5 and makes the detail query set
empty shortly after. -/
theorem detailResult_stamps_detailUpdateTime_witness :
    (SubmitDistributedQueryResults envAllOk 5 host0
        [(hostDetailQueryMark ++ "os_version", [])] []).1 = .ok () ∧
    (SubmitDistributedQueryResults envAllOk 5 host0
        [(hostDetailQueryMark ++ "os_version", [])] []).2.savedHosts =
      [{ host0 with detailUpdateTime := 5 }] ∧
    hostDetailQueries 6 { host0 with detailUpdateTime := 5 } = [] :=
  ⟨(detailResult_stamps_detailUpdateTime envAllOk 5 6 host0 [] "os_version"
      osVersionIngest rfl rfl rfl).1,
   (detailResult_stamps_detailUpdateTime envAllOk 5 6 host0 [] "os_version"
      osVersionIngest rfl rfl rfl).2.1,
   (detailResult_stamps_detailUpdateTime envAllOk 5 6 host0 [] "os_version"
      osVersionIngest rfl rfl rfl).2.2 (by norm_num [detailUpdateIntervalNs])⟩

/-! ## C4: unrecognized query names reject the submission -/

theorem ingestDistributedQuery_frame (env : Env) (eff : Effects) (host : Host)
    (name : String) (rows : List Row) (failed : Bool) :
    (ingestDistributedQuery env eff host name rows failed).2.labelRecords =
      eff.labelRecords ∧
    (ingestDistributedQuery env eff host name rows failed).2.savedHosts =
      eff.savedHosts := by
  cases hp : goAtoi (emptyToZero (goTrimLeading name hostDistributedQueryMark)) with
  | error e => constructor <;> simp [ingestDistributedQuery, hp]
  | ok cid =>
    cases hb : env.publishOutcome (mkDistributedResult host rows failed (goUint cid)) with
    | ok =>
      cases hx : env.newExecutionErr (mkExecRecord host (goUint cid) failed) <;>
        constructor <;> simp [ingestDistributedQuery, hp, hb, hx]
    | otherError m => constructor <;> simp [ingestDistributedQuery, hp, hb]
    | noSubscriber =>
      cases hc : env.loadCampaign (goUint cid) with
      | error m => constructor <;> simp [ingestDistributedQuery, hp, hb, hc]
      | ok c =>
        cases hs : env.saveCampaignErr { c with status := QueryStatus.complete } with
        | some m => constructor <;> simp [ingestDistributedQuery, hp, hb, hc, hs]
        | none =>
          cases hx : env.newExecutionErr (mkExecRecord host (goUint cid) failed) <;>
            constructor <;> simp [ingestDistributedQuery, hp, hb, hc, hs, hx]

theorem submitStep_frame (env : Env) (statuses : List (String × Int))
    (st : SubmitState) (query : String) (rows : List Row) :
    (submitStep env statuses st query rows).2.eff.labelRecords = st.eff.labelRecords ∧
    (submitStep env statuses st query rows).2.eff.savedHosts = st.eff.savedHosts := by
  by_cases h1 : goHasAtStart query hostDetailQueryMark = true
  · simp only [submitStep, h1, if_true]
    cases ingestDetailQuery st.host query rows <;> exact ⟨rfl, rfl⟩
  · by_cases h2 : goHasAtStart query hostLabelQueryMark = true
    · simp only [submitStep, h1, h2, if_false, if_true]
      cases ingestLabelQuery query rows st.labelResults <;> exact ⟨rfl, rfl⟩
    · by_cases h3 : goHasAtStart query hostDistributedQueryMark = true
      · simp only [submitStep, h1, h2, h3, if_false, if_true]
        exact ingestDistributedQuery_frame env st.eff st.host query rows _
      · simp only [submitStep, h1, h2, h3, if_false]
        exact ⟨rfl, rfl⟩

theorem submitLoop_frame (env : Env) (statuses : List (String × Int)) :
    ∀ (entries : List (String × List Row)) (st : SubmitState),
      (submitLoop env statuses st entries).2.eff.labelRecords = st.eff.labelRecords ∧
      (submitLoop env statuses st entries).2.eff.savedHosts = st.eff.savedHosts := by
  intro entries
  induction entries with
  | nil => intro st; exact ⟨rfl, rfl⟩
  | cons entry rest ih =>
    intro st
    obtain ⟨query, rows⟩ := entry
    have hstep := submitStep_frame env statuses st query rows
    cases hs : submitStep env statuses st query rows with
    | mk r st' =>
      rw [hs] at hstep
      cases r with
      | error e => simpa [submitLoop, hs] using hstep
      | ok u =>
        have hrest := ih st'
        constructor
        · simp only [submitLoop, hs]
          exact hrest.1.trans hstep.1
        · simp only [submitLoop, hs]
          exact hrest.2.trans hstep.2

theorem submitLoop_err_of_unknown (env : Env) (statuses : List (String × Int)) :
    ∀ (entries : List (String × List Row)) (st : SubmitState),
      (∃ e ∈ entries, goHasAtStart e.1 hostDetailQueryMark = false ∧
        goHasAtStart e.1 hostLabelQueryMark = false ∧
        goHasAtStart e.1 hostDistributedQueryMark = false) →
      ∃ msg, (submitLoop env statuses st entries).1 = .error msg := by
  intro entries
  induction entries with
  | nil => intro st h; simp at h
  | cons entry rest ih =>
    intro st h
    obtain ⟨query, rows⟩ := entry
    cases hs : submitStep env statuses st query rows with
    | mk r st' =>
      cases r with
      | error e =>
        exact ⟨"failed to ingest result: " ++ e, by simp [submitLoop, hs]⟩
      | ok u =>
        obtain ⟨e, he, h1, h2, h3⟩ := h
        rcases List.mem_cons.mp he with he | he
        · exfalso
          subst he
          simp only at h1 h2 h3
          have hbad : submitStep env statuses st query rows =
              (.error ("unknown query prefix: " ++ query), st) := by
            simp [submitStep, h1, h2, h3]
          rw [hbad] at hs
          simp at hs
        · obtain ⟨msg, hmsg⟩ := ih st' ⟨e, he, h1, h2, h3⟩
          exact ⟨msg, by simp [submitLoop, hs, hmsg]⟩

/-- C4 counterexample: in iteration order [distributed entry, unrecognized
entry], the submission fails with the UnknownQuery error and no agent
mutation is persisted, but ingestion of the batch WAS attempted: the first
entry's result envelope was published and its execution audit record
persisted before the unrecognized name aborted the loop. -/
theorem submit_unknown_after_distributed_still_ingests :
    (SubmitDistributedQueryResults envAllOk 0 host0
        [(hostDistributedQueryMark ++ "1", []), ("host_time", [])] []).1 =
      .error "failed to ingest result: unknown query prefix: host_time" ∧
    (SubmitDistributedQueryResults envAllOk 0 host0
        [(hostDistributedQueryMark ++ "1", []), ("host_time", [])] []).2.executions =
      [mkExecRecord host0 1 false] ∧
    (SubmitDistributedQueryResults envAllOk 0 host0
        [(hostDistributedQueryMark ++ "1", []), ("host_time", [])] []).2.savedHosts = [] ∧
    (SubmitDistributedQueryResults envAllOk 0 host0
        [(hostDistributedQueryMark ++ "1", []), ("host_time", [])] []).2.labelRecords =
      [] :=
  ⟨rfl, rfl, rfl, rfl⟩

/-- C4 amended: when any query name of the batch carries none of the three
recognized markers, the submission fails and no agent mutation is persisted
(no label memberships are recorded and no host — hence no detail fields or
detail-update timestamp — is saved); when the unrecognized entry is the first
one iterated it fails with the UnknownQuery error and no effect at all is
produced, while entries iterated before it are still ingested (distributed
results among them may be published and audit-recorded). -/
theorem submit_unknown_name_rejected (env : Env) (now : Int) (host : Host)
    (results : List (String × List Row)) (statuses : List (String × Int))
    (query : String) (rows : List Row) (hmem : (query, rows) ∈ results)
    (h1 : goHasAtStart query hostDetailQueryMark = false)
    (h2 : goHasAtStart query hostLabelQueryMark = false)
    (h3 : goHasAtStart query hostDistributedQueryMark = false) :
    (∃ msg, (SubmitDistributedQueryResults env now host results statuses).1 =
      .error msg) ∧
    (SubmitDistributedQueryResults env now host results statuses).2.labelRecords = [] ∧
    (SubmitDistributedQueryResults env now host results statuses).2.savedHosts = [] ∧
    (∀ rest, results = (query, rows) :: rest →
      (SubmitDistributedQueryResults env now host results statuses).1 =
        .error ("failed to ingest result: " ++ ("unknown query prefix: " ++ query)) ∧
      (SubmitDistributedQueryResults env now host results statuses).2 =
        Effects.empty) := by
  obtain ⟨msg, hmsg⟩ := submitLoop_err_of_unknown env statuses results
    { host := host, labelResults := [], detailUpdated := false, eff := Effects.empty }
    ⟨(query, rows), hmem, h1, h2, h3⟩
  have hframe := submitLoop_frame env statuses results
    { host := host, labelResults := [], detailUpdated := false, eff := Effects.empty }
  have hlast : ∀ rest, results = (query, rows) :: rest →
      (SubmitDistributedQueryResults env now host results statuses).1 =
        .error ("failed to ingest result: " ++ ("unknown query prefix: " ++ query)) ∧
      (SubmitDistributedQueryResults env now host results statuses).2 =
        Effects.empty := by
    intro rest hres
    subst hres
    have hstep : submitStep env statuses
        { host := host, labelResults := [], detailUpdated := false, eff := Effects.empty }
        query rows =
        (.error ("unknown query prefix: " ++ query),
          { host := host, labelResults := [], detailUpdated := false,
            eff := Effects.empty }) := by
      simp [submitStep, h1, h2, h3]
    constructor
    · simp [SubmitDistributedQueryResults, submitLoop, hstep]
    · simp [SubmitDistributedQueryResults, submitLoop, hstep]
  cases hs : submitLoop env statuses
      { host := host, labelResults := [], detailUpdated := false, eff := Effects.empty }
      results with
  | mk r st =>
    rw [hs] at hmsg hframe
    cases r with
    | ok u => simp at hmsg
    | error e =>
      refine ⟨⟨e, ?_⟩, ?_, ?_, hlast⟩
      · simp [SubmitDistributedQueryResults, hs]
      · simp only [SubmitDistributedQueryResults, hs]
        exact hframe.1
      · simp only [SubmitDistributedQueryResults, hs]
        exact hframe.2

/-- C4 witness: a batch whose only (hence first) entry has an unrecognized
name is rejected with the UnknownQuery error and produces no effect. -/
theorem submit_unknown_name_rejected_witness :
    (SubmitDistributedQueryResults envAllOk 0 host0 [("host_time", [])] []).1 =
      .error ("failed to ingest result: " ++ ("unknown query prefix: " ++ "host_time")) ∧
    (SubmitDistributedQueryResults envAllOk 0 host0 [("host_time", [])] []).2 =
      Effects.empty :=
  (submit_unknown_name_rejected envAllOk 0 host0 [("host_time", [])] [] "host_time" []
    (by simp) rfl rfl rfl).2.2.2 [] rfl

/-! ## C5: label membership recording -/

theorem mapSet_lookup_self (m : List (Nat × Bool)) (k : Nat) (v : Bool) :
    (mapSet m k v).lookup k = some v := by
  induction m with
  | nil => simp [mapSet, List.lookup]
  | cons p rest ih =>
    obtain ⟨k', v'⟩ := p
    by_cases h : k' = k
    · subst h
      simp [mapSet, List.lookup]
    · have hb : (k == k') = false := beq_eq_false_iff_ne.mpr (Ne.symm h)
      simp [mapSet, h, List.lookup, hb, ih]

theorem mapSet_lookup_other (m : List (Nat × Bool)) (k k2 : Nat) (v : Bool)
    (h : k2 ≠ k) : (mapSet m k v).lookup k2 = m.lookup k2 := by
  induction m with
  | nil =>
    have hb : (k2 == k) = false := beq_eq_false_iff_ne.mpr h
    simp [mapSet, List.lookup, hb]
  | cons p rest ih =>
    obtain ⟨k', v'⟩ := p
    by_cases h' : k' = k
    · subst h'
      have hb : (k2 == k') = false := beq_eq_false_iff_ne.mpr h
      simp [mapSet, List.lookup, hb]
    · simp only [mapSet, if_neg h', List.lookup]
      by_cases h2 : k2 = k'
      · subst h2
        simp [List.lookup]
      · have hb : (k2 == k') = false := beq_eq_false_iff_ne.mpr h2
        simp [List.lookup, hb, ih]

theorem mapSet_ne_nil (m : List (Nat × Bool)) (k : Nat) (v : Bool) :
    mapSet m k v ≠ [] := by
  cases m with
  | nil => simp [mapSet]
  | cons p rest =>
    obtain ⟨k', v'⟩ := p
    simp only [mapSet]
    split <;> simp

theorem labelFold_ne_nil (ids : String → Int) :
    ∀ (entries : List (String × List Row)) (m0 : List (Nat × Bool)),
      m0 ≠ [] ∨ entries ≠ [] → labelFold ids m0 entries ≠ [] := by
  intro entries
  induction entries with
  | nil =>
    intro m0 h
    rcases h with h | h
    · simpa [labelFold] using h
    · exact absurd rfl h
  | cons e rest ih =>
    intro m0 h
    exact ih (mapSet m0 (goUint (ids e.1)) (decide (0 < e.2.length)))
      (Or.inl (mapSet_ne_nil _ _ _))

theorem labelFold_lookup_of_not_mem (ids : String → Int) :
    ∀ (entries : List (String × List Row)) (m0 : List (Nat × Bool)) (k : Nat),
      k ∉ entries.map (fun e => goUint (ids e.1)) →
      (labelFold ids m0 entries).lookup k = m0.lookup k := by
  intro entries
  induction entries with
  | nil => intro m0 k _; rfl
  | cons e rest ih =>
    intro m0 k hk
    simp only [List.map_cons, List.mem_cons] at hk
    push_neg at hk
    have : (labelFold ids (mapSet m0 (goUint (ids e.1)) (decide (0 < e.2.length)))
        rest).lookup k = (mapSet m0 (goUint (ids e.1)) (decide (0 < e.2.length))).lookup k :=
      ih _ k hk.2
    calc (labelFold ids m0 (e :: rest)).lookup k
        = (mapSet m0 (goUint (ids e.1)) (decide (0 < e.2.length))).lookup k := this
      _ = m0.lookup k := mapSet_lookup_other _ _ _ _ hk.1

theorem labelFold_lookup (ids : String → Int) :
    ∀ (entries : List (String × List Row)) (m0 : List (Nat × Bool)),
      (entries.map (fun e => goUint (ids e.1))).Nodup →
      ∀ e ∈ entries,
        (labelFold ids m0 entries).lookup (goUint (ids e.1)) =
          some (decide (0 < e.2.length)) := by
  intro entries
  induction entries with
  | nil => intro m0 _ e he; simp at he
  | cons e0 rest ih =>
    intro m0 hnd e he
    simp only [List.map_cons, List.nodup_cons] at hnd
    rcases List.mem_cons.mp he with he | he
    · subst he
      have : (labelFold ids (mapSet m0 (goUint (ids e.1)) (decide (0 < e.2.length)))
          rest).lookup (goUint (ids e.1)) =
          (mapSet m0 (goUint (ids e.1)) (decide (0 < e.2.length))).lookup
            (goUint (ids e.1)) :=
        labelFold_lookup_of_not_mem ids rest _ _ hnd.1
      calc (labelFold ids m0 (e :: rest)).lookup (goUint (ids e.1))
          = (mapSet m0 (goUint (ids e.1)) (decide (0 < e.2.length))).lookup
              (goUint (ids e.1)) := this
        _ = some (decide (0 < e.2.length)) := mapSet_lookup_self _ _ _
    · exact ih (mapSet m0 (goUint (ids e0.1)) (decide (0 < e0.2.length))) hnd.2 e he

theorem submitLoop_label_batch (env : Env) (statuses : List (String × Int))
    (ids : String → Int) :
    ∀ (entries : List (String × List Row)) (st : SubmitState),
      (∀ e ∈ entries, goAtoi (emptyToZero e.1) = .ok (ids e.1)) →
      submitLoop env statuses st
          (entries.map (fun e => (hostLabelQueryMark ++ e.1, e.2))) =
        (.ok (), { st with labelResults := labelFold ids st.labelResults entries }) := by
  intro entries
  induction entries with
  | nil => intro st _; rfl
  | cons e rest ih =>
    intro st h
    obtain ⟨s, rows⟩ := e
    have hhead : goAtoi (emptyToZero s) = .ok (ids s) := h (s, rows) (by simp)
    have hstep : submitStep env statuses st (hostLabelQueryMark ++ s) rows =
        (.ok (), { st with labelResults := mapSet st.labelResults (goUint (ids s)) (decide (0 < rows.length)) }) := by
      simp [submitStep, labelMark_not_detail, labelMark_self, ingestLabelQuery,
        labelMark_trim, hhead]
    have hrest := ih
      { st with labelResults := mapSet st.labelResults (goUint (ids s)) (decide (0 < rows.length)) }
      (fun e2 he2 => h e2 (List.mem_cons_of_mem _ he2))
    simp only [List.map_cons, submitLoop, hstep, hrest]
    rfl

/-- C5: for a submission consisting of label-marked entries (with parsable,
pairwise distinct label identifiers), the recorded membership value of each
label is true exactly when its submitted row list is non-empty — a zero-row
result is recorded as false rather than skipped — and all label results of
the session are persisted in exactly one batched datastore call keyed by the
current timestamp. -/
theorem labelResults_recorded_batched (env : Env) (now : Int) (host : Host)
    (statuses : List (String × Int)) (entries : List (String × List Row))
    (ids : String → Int) (hne : entries ≠ [])
    (hrec : env.recordLabelErr = none) (hsave : env.saveHostErr = none)
    (hparse : ∀ e ∈ entries, goAtoi (emptyToZero e.1) = .ok (ids e.1))
    (hnd : (entries.map (fun e => goUint (ids e.1))).Nodup) :
    (SubmitDistributedQueryResults env now host
        (entries.map (fun e => (hostLabelQueryMark ++ e.1, e.2))) statuses).1 = .ok () ∧
    ∃ m, (SubmitDistributedQueryResults env now host
          (entries.map (fun e => (hostLabelQueryMark ++ e.1, e.2))) statuses).2.labelRecords =
        [(m, now)] ∧
      ∀ e ∈ entries,
        m.lookup (goUint (ids e.1)) = some (decide (0 < e.2.length)) := by
  have hloop := submitLoop_label_batch env statuses ids entries
    { host := host, labelResults := [], detailUpdated := false, eff := Effects.empty }
    hparse
  have hL : labelFold ids [] entries ≠ [] := labelFold_ne_nil ids entries [] (Or.inr hne)
  have hlen : 0 < (labelFold ids [] entries).length := List.length_pos.mpr hL
  refine ⟨?_, labelFold ids [] entries, ?_, ?_⟩
  · simp only [SubmitDistributedQueryResults, hloop]
    simp [hrec, hsave, hlen, Effects.empty]
  · simp only [SubmitDistributedQueryResults, hloop]
    simp [hrec, hsave, hlen, Effects.empty]
  · exact fun e he => labelFold_lookup ids entries [] hnd e he

/-- C5 witness: label 3 with one row is recorded true and label 7 with zero
rows is recorded false, in a single batched call keyed by time 11. -/
theorem labelResults_recorded_batched_witness :
    (SubmitDistributedQueryResults envAllOk 11 host0
        (([("3", [[("c", "v")]]), ("7", [])] : List (String × List Row)).map
          (fun e => (hostLabelQueryMark ++ e.1, e.2))) []).1 = .ok () ∧
    ∃ m, (SubmitDistributedQueryResults envAllOk 11 host0
          (([("3", [[("c", "v")]]), ("7", [])] : List (String × List Row)).map
            (fun e => (hostLabelQueryMark ++ e.1, e.2))) []).2.labelRecords =
        [(m, 11)] ∧
      ∀ e ∈ ([("3", [[("c", "v")]]), ("7", [])] : List (String × List Row)),
        m.lookup (goUint ((fun s => if s = "3" then (3 : Int) else 7) e.1)) =
          some (decide (0 < e.2.length)) :=
  labelResults_recorded_batched envAllOk 11 host0 []
    [("3", [[("c", "v")]]), ("7", [])] (fun s => if s = "3" then 3 else 7)
    (by simp) rfl rfl
    (by intro e he
        simp only [List.mem_cons, List.not_mem_nil, or_false] at he
        rcases he with h | h <;> subst h <;> rfl)
    (by decide)
